import Mathlib

/-!
Verification of the conversation-store / dispatch logic of `bot.py`
(a Telegram relay bot for an external chat-completion service).

The embedding models:
- `Turn`, `Conversation`, `Store` — the data model (`conversations` dict);
- `get_or_create` — the fetch-or-create step at the top of `handle_message`;
- `requestOf` / `handle_message` — the dispatcher, with the external
  completion service passed in as a function from requests to
  `Except`-results (error detail or reply text);
- `splitMessage` — the outbound chunking step;
- `reset`, `startMessage`, `step` — the command handlers and the
  per-inbound-update dispatch;
- `Env` / `startup` — the module-level credential validation and the
  delivery-mode selection in `main`.
-/

/-- Chat roles, as the `"role"` field of a turn dict in `bot.py`. -/
inductive Role where
  | system
  | user
  | assistant
deriving DecidableEq, Repr

/-- One `{"role": ..., "content": ...}` entry of a conversation list. -/
structure Turn where
  role : Role
  content : String
deriving DecidableEq, Repr

/-- `conversations[user_id]` is an ordered list of turns. -/
abbrev Conversation := List Turn

/-- Telegram user ids (`update.message.from_user.id`). -/
abbrev UserId := Nat

/-- The `conversations` dict: a user id is either absent or mapped to a
conversation. -/
abbrev Store := UserId → Option Conversation

/-- `conversations[u] = c` as a store update. -/
def Store.set (s : Store) (u : UserId) (c : Conversation) : Store :=
  fun v => if v = u then some c else s v

/-- The fixed system turn seeding every conversation
(`{"role": "system", "content": "You are a helpful assistant."}`). -/
def systemTurn : Turn :=
  { role := Role.system, content := "You are a helpful assistant." }

/-- Lines 53-56 of `bot.py`: if the user id is not in `conversations`,
seed it with the system turn; return the updated store and the user's
conversation. -/
def get_or_create (s : Store) (u : UserId) : Store × Conversation :=
  match s u with
  | some c => (s, c)
  | none => (Store.set s u [systemTurn], [systemTurn])

/-- Maximum outbound message length used by the chunking step. -/
def chunkSize : Nat := 4000

/-- The slices `cs[i:i+4000]` for `i in range(0, len(cs), 4000)`, written
with structural fuel (`fuel` bounds the list length, so the `0, cs` row
with `cs` nonempty is never reached from `chunkList`). -/
def chunkFuel : Nat → List Char → List (List Char)
  | _, [] => []
  | 0, cs => [cs]
  | fuel + 1, cs => cs.take chunkSize :: chunkFuel fuel (cs.drop chunkSize)

/-- The loop `for i in range(0, len(ai_reply), 4000)` collecting
`ai_reply[i:i+4000]`. -/
def chunkList (cs : List Char) : List (List Char) :=
  chunkFuel cs.length cs

/-- Lines 76-81 of `bot.py`: if the reply is longer than 4000 characters
it is sent slice by slice, otherwise it is sent as a single message. -/
def splitMessage (reply : String) : List String :=
  if reply.length > chunkSize then
    (chunkList reply.toList).map (fun cs => String.mk cs)
  else
    [reply]

/-- The fixed user-facing error notice sent from the `except` branch. -/
def errorNotice : String :=
  "⚠️ I encountered an error processing your request. Please try again later."

/-- The request `client.chat.completions.create(...)` is called with:
the full conversation of the user (with the new user turn appended) plus
fixed parameters. Temperature `0.7` is represented in tenths. -/
structure CompletionRequest where
  model : String
  messages : List Turn
  max_tokens : Nat
  temperatureTenths : Nat
deriving DecidableEq, Repr

/-- The completion service: given a request it either fails (with some
error detail, which `bot.py` only logs) or returns the reply text. -/
abbrev CompletionService := CompletionRequest → Except String String

/-- The request `handle_message` sends for store `s`, user `u` and input
`text`: the conversation after get-or-create with the user turn
appended, model `"gpt-3.5-turbo"`, `max_tokens=1000`, `temperature=0.7`. -/
def requestOf (s : Store) (u : UserId) (text : String) : CompletionRequest :=
  { model := "gpt-3.5-turbo"
    messages := (get_or_create s u).2 ++ [{ role := Role.user, content := text }]
    max_tokens := 1000
    temperatureTenths := 7 }

/-- Lines 47-85 of `bot.py` (`handle_message`): get-or-create the
conversation, append the user turn, call the completion service; on
success append the assistant turn and return the chunked reply, on any
failure leave only the user turn recorded and return the fixed error
notice as the single output chunk. Returns the final store and the
ordered outbound chunks. -/
def handle_message (svc : CompletionService) (s : Store) (u : UserId)
    (text : String) : Store × List String :=
  let s1 := (get_or_create s u).1
  let conv1 := (get_or_create s u).2 ++ [{ role := Role.user, content := text }]
  let s2 := Store.set s1 u conv1
  match svc (requestOf s u text) with
  | Except.ok reply =>
      (Store.set s2 u (conv1 ++ [{ role := Role.assistant, content := reply }]),
        splitMessage reply)
  | Except.error _ => (s2, [errorNotice])

/-- The fixed acknowledgement sent by the `/reset` handler. -/
def resetAck : String := "🔄 Conversation history cleared!"

/-- Lines 87-93 of `bot.py` (`reset`): replace the user's conversation
with a fresh single-system-turn one and return the acknowledgement. -/
def reset (s : Store) (u : UserId) : Store × String :=
  (Store.set s u [systemTurn], resetAck)

/-- Lines 37-45 of `bot.py` (`start`): the fixed templated greeting; the
handler never touches `conversations`. -/
def startMessage (firstName : String) : String :=
  "Hello " ++ firstName ++ "! 🤖\n" ++
  "I'm your ChatGPT-3.5 Telegram bot.\n\n" ++
  "Just send me a message and I'll respond like ChatGPT!\n" ++
  "Use /reset to clear our conversation history."

/-- An inbound update: a plain text message, `/start`, or `/reset`. -/
inductive Inbound where
  | msg (u : UserId) (text : String)
  | cmdStart (u : UserId) (firstName : String)
  | cmdReset (u : UserId)

/-- Dispatch of one inbound update to its registered handler, returning
the new store and the outbound chunks. `start` does not touch the store. -/
def step (svc : CompletionService) (s : Store) : Inbound → Store × List String
  | Inbound.msg u text => handle_message svc s u text
  | Inbound.cmdStart _ firstName => (s, [startMessage firstName])
  | Inbound.cmdReset u => ((reset s u).1, [(reset s u).2])

/-- Store invariant: every present conversation starts with the system
turn. -/
def StoreInv (s : Store) : Prop :=
  ∀ u c, s u = some c → c.head? = some systemTurn

/-- Python truthiness of an environment lookup: `not x` is true for both
an unset variable (`None`) and the empty string. -/
def truthy : Option String → Bool
  | none => false
  | some s => s ≠ ""

/-- The environment variables read by `bot.py` at startup. -/
structure Env where
  telegram_token : Option String
  openai_api_key : Option String
  render : Option String
  render_external_url : Option String
  render_service_name : Option String

/-- Outcome of startup: fatal configuration error (the process does not
start), webhook (push) mode with the chosen callback URL, or polling
(pull) mode. -/
inductive StartupResult where
  | configError
  | webhook (url : String)
  | polling
deriving DecidableEq, Repr

/-- Python's `str.lower()`, character by character. -/
def strLower (s : String) : String := String.mk (s.toList.map Char.toLower)

/-- Lines 26-29 and 108-136 of `bot.py`: raise if either credential is
missing; if `RENDER` (default `"false"`, lowercased) equals `"true"`,
use `RENDER_EXTERNAL_URL`, else derive the URL from
`RENDER_SERVICE_NAME`, else raise; otherwise run polling. -/
def startup (env : Env) : StartupResult :=
  if ¬ (truthy env.telegram_token ∧ truthy env.openai_api_key) then
    StartupResult.configError
  else if strLower (env.render.getD "false") = "true" then
    if truthy env.render_external_url then
      StartupResult.webhook (env.render_external_url.getD "" ++ "/webhook")
    else if truthy env.render_service_name then
      StartupResult.webhook
        ("https://" ++ env.render_service_name.getD "" ++ ".onrender.com" ++ "/webhook")
    else StartupResult.configError
  else StartupResult.polling

/-! ## Helper lemmas -/

theorem chunkFuel_cons (fuel : Nat) (c : Char) (cs : List Char) :
    chunkFuel (fuel + 1) (c :: cs)
      = (c :: cs).take chunkSize :: chunkFuel fuel ((c :: cs).drop chunkSize) := rfl

theorem chunkFuel_eq_map_range :
    ∀ (fuel : Nat) (cs : List Char), cs.length ≤ fuel →
      chunkFuel fuel cs =
        (List.range ((cs.length + 3999) / 4000)).map
          (fun i => (cs.drop (4000 * i)).take 4000)
  | fuel, [], _ => by cases fuel <;> simp [chunkFuel]
  | 0, c :: cs, h => by simp at h
  | fuel + 1, c :: cs, h => by
    have hlen : ((c :: cs).drop chunkSize).length ≤ fuel := by
      simp only [List.length_drop, List.length_cons] at *
      simp only [chunkSize]
      omega
    have ih := chunkFuel_eq_map_range fuel ((c :: cs).drop chunkSize) hlen
    have hk : ((c :: cs).length + 3999) / 4000
        = (((c :: cs).drop chunkSize).length + 3999) / 4000 + 1 := by
      simp only [List.length_drop, List.length_cons, chunkSize]
      omega
    rw [chunkFuel_cons, ih, hk, List.range_succ_eq_map]
    simp only [List.map_cons, List.map_map]
    refine List.cons_eq_cons.mpr ⟨?_, ?_⟩
    · simp [chunkSize]
    · refine List.map_congr_left ?_
      intro i _
      simp only [Function.comp, List.drop_drop]
      have harg : chunkSize + 4000 * i = 4000 * Nat.succ i := by
        simp only [chunkSize]
        omega
      rw [harg]

theorem chunkFuel_flatten :
    ∀ (fuel : Nat) (cs : List Char), cs.length ≤ fuel →
      (chunkFuel fuel cs).flatten = cs
  | fuel, [], _ => by cases fuel <;> simp [chunkFuel]
  | 0, c :: cs, h => by simp at h
  | fuel + 1, c :: cs, h => by
    have hlen : ((c :: cs).drop chunkSize).length ≤ fuel := by
      simp only [List.length_drop, List.length_cons] at *
      simp only [chunkSize]
      omega
    rw [chunkFuel_cons, List.flatten_cons, chunkFuel_flatten fuel _ hlen,
      List.take_append_drop]

theorem chunkFuel_length_le :
    ∀ (fuel : Nat) (cs : List Char), cs.length ≤ fuel →
      ∀ c ∈ chunkFuel fuel cs, c.length ≤ chunkSize
  | fuel, [], _ => by cases fuel <;> simp [chunkFuel]
  | 0, c :: cs, h => by simp at h
  | fuel + 1, c :: cs, h => by
    intro x hx
    rw [chunkFuel_cons] at hx
    rcases List.mem_cons.mp hx with hx | hx
    · subst hx
      simp only [List.length_take]
      omega
    · have hlen : ((c :: cs).drop chunkSize).length ≤ fuel := by
        simp only [List.length_drop, List.length_cons] at *
        simp only [chunkSize]
        omega
      exact chunkFuel_length_le fuel _ hlen x hx

theorem String_mk_append (a b : List Char) :
    String.mk a ++ String.mk b = String.mk (a ++ b) := rfl

theorem String_length_mk (cs : List Char) : (String.mk cs).length = cs.length := rfl

theorem String_toList_mk (cs : List Char) : (String.mk cs).toList = cs := rfl

theorem foldl_append_mk :
    ∀ (l : List (List Char)) (a : List Char),
      (l.map String.mk).foldl (fun r t => r ++ t) (String.mk a)
        = String.mk (a ++ l.flatten)
  | [], a => by simp
  | c :: l, a => by
    simp only [List.map_cons, List.foldl_cons]
    rw [String_mk_append, foldl_append_mk l (a ++ c)]
    simp [List.append_assoc]

theorem String_join_map_mk (l : List (List Char)) :
    String.join (l.map String.mk) = String.mk l.flatten := by
  have h := foldl_append_mk l []
  simpa [String.join] using h

theorem handle_message_ok_store (svc : CompletionService) (s : Store)
    (u : UserId) (text reply : String)
    (h : svc (requestOf s u text) = Except.ok reply) :
    (handle_message svc s u text).1 u =
      some ((get_or_create s u).2
        ++ [{ role := Role.user, content := text },
            { role := Role.assistant, content := reply }]) := by
  simp only [handle_message, h]
  simp [Store.set]

theorem handle_message_ok_out (svc : CompletionService) (s : Store)
    (u : UserId) (text reply : String)
    (h : svc (requestOf s u text) = Except.ok reply) :
    (handle_message svc s u text).2 = splitMessage reply := by
  simp only [handle_message, h]

theorem handle_message_err_store (svc : CompletionService) (s : Store)
    (u : UserId) (text err : String)
    (h : svc (requestOf s u text) = Except.error err) :
    (handle_message svc s u text).1 u =
      some ((get_or_create s u).2 ++ [{ role := Role.user, content := text }]) := by
  simp only [handle_message, h]
  simp [Store.set]

theorem handle_message_err_out (svc : CompletionService) (s : Store)
    (u : UserId) (text err : String)
    (h : svc (requestOf s u text) = Except.error err) :
    (handle_message svc s u text).2 = [errorNotice] := by
  simp only [handle_message, h]

theorem handle_message_frame (svc : CompletionService) (s : Store)
    (u : UserId) (text : String) (v : UserId) (hvu : v ≠ u) :
    (handle_message svc s u text).1 v = s v := by
  cases hr : svc (requestOf s u text) <;>
    cases hsu : s u <;>
      simp [handle_message, get_or_create, hr, hsu, Store.set, hvu]

theorem get_or_create_head (s : Store) (u : UserId) (hs : StoreInv s) :
    ∃ rest, (get_or_create s u).2 = systemTurn :: rest := by
  cases hsu : s u with
  | none => exact ⟨[], by simp [get_or_create, hsu]⟩
  | some c =>
    have hc := hs u c hsu
    cases c with
    | nil => simp at hc
    | cons t r =>
      simp only [List.head?_cons, Option.some.injEq] at hc
      exact ⟨r, by simp [get_or_create, hsu, hc]⟩

/-! ## Claims -/

/-- C1: on a successful completion-service call, `handle_message` appends
exactly the user turn (content = input text) and then the assistant turn
(content = reply) to the user's get-or-create'd conversation, changing no
other turn, and returns the chunked reply; the get-or-create'd
conversation is the existing one when present (so length grows by exactly
2) and `[systemTurn]` for a new user. -/
theorem C1_success_appends_user_then_assistant (svc : CompletionService)
    (s : Store) (u : UserId) (text reply : String)
    (h : svc (requestOf s u text) = Except.ok reply) :
    (handle_message svc s u text).1 u =
      some ((get_or_create s u).2
        ++ [{ role := Role.user, content := text },
            { role := Role.assistant, content := reply }]) ∧
    (handle_message svc s u text).2 = splitMessage reply ∧
    (∀ c, s u = some c → (get_or_create s u).2 = c) ∧
    (s u = none → (get_or_create s u).2 = [systemTurn]) :=
  ⟨handle_message_ok_store svc s u text reply h,
   handle_message_ok_out svc s u text reply h,
   fun c hc => by simp [get_or_create, hc],
   fun hc => by simp [get_or_create, hc]⟩

/-- C1 witness: first message "hello" from new user 42 with reply
"hi there" gives conversation [system, user:"hello", assistant:"hi there"]
and output ["hi there"]. -/
theorem C1_success_appends_user_then_assistant_witness :
    (handle_message (fun _ => Except.ok "hi there") (fun _ => none) 42 "hello").1 42 =
      some [systemTurn, { role := Role.user, content := "hello" },
        { role := Role.assistant, content := "hi there" }] ∧
    (handle_message (fun _ => Except.ok "hi there") (fun _ => none) 42 "hello").2 =
      ["hi there"] := by
  have h := C1_success_appends_user_then_assistant (fun _ => Except.ok "hi there")
    (fun _ => none) 42 "hello" "hi there" rfl
  exact ⟨h.1.trans (by decide), h.2.1.trans (by decide)⟩

/-- C2: when the completion service fails, `handle_message` records only
the user turn (no assistant turn), returns the single fixed error chunk,
and that chunk is at most 4000 characters; being a total function, the
handler never crashes. -/
theorem C2_failure_records_user_turn_only (svc : CompletionService)
    (s : Store) (u : UserId) (text err : String)
    (h : svc (requestOf s u text) = Except.error err) :
    (handle_message svc s u text).1 u =
      some ((get_or_create s u).2 ++ [{ role := Role.user, content := text }]) ∧
    (handle_message svc s u text).2 = [errorNotice] ∧
    errorNotice.length ≤ 4000 :=
  ⟨handle_message_err_store svc s u text err h,
   handle_message_err_out svc s u text err h,
   by decide⟩

/-- C2 witness: service failure for user 5 with existing history of
length 3 leaves length 4 (user turn only) and one error chunk. -/
theorem C2_failure_records_user_turn_only_witness :
    (handle_message (fun _ => Except.error "boom")
        (fun v => if v = 5 then
            some [systemTurn, { role := Role.user, content := "a" },
              { role := Role.assistant, content := "b" }]
          else none) 5 "q").1 5 =
      some [systemTurn, { role := Role.user, content := "a" },
        { role := Role.assistant, content := "b" },
        { role := Role.user, content := "q" }] ∧
    (handle_message (fun _ => Except.error "boom")
        (fun v => if v = 5 then
            some [systemTurn, { role := Role.user, content := "a" },
              { role := Role.assistant, content := "b" }]
          else none) 5 "q").2 = [errorNotice] := by
  have h := C2_failure_records_user_turn_only (fun _ => Except.error "boom")
    (fun v => if v = 5 then
        some [systemTurn, { role := Role.user, content := "a" },
          { role := Role.assistant, content := "b" }]
      else none) 5 "q" "boom" rfl
  exact ⟨h.1.trans (by decide), h.2.1⟩

/-- C3 counterexample: for the empty reply the chunking step produces one
(empty) chunk, whereas the claim demands ceil(0/4000) = 0 chunks. -/
theorem C3_chunk_count_counterexample :
    splitMessage "" = [""] ∧
    (splitMessage "").length ≠ (("" : String).length + 3999) / 4000 := by
  decide

/-- C3 (amended): the chunking step produces exactly
max 1 (ceil(L/4000)) chunks — i.e. ceil(L/4000) chunks for L ≥ 1, and one
empty chunk for L = 0 — the i-th chunk being chars [4000·i, 4000·i+4000)
of the reply, each chunk at most 4000 characters, and the in-order
concatenation of the chunks equals the original reply (so for L = 9000
the chunks are chars 0–3999, 4000–7999 and 8000–8999). -/
theorem C3_chunking_amended (reply : String) :
    splitMessage reply =
      (List.range (max 1 ((reply.length + 3999) / 4000))).map
        (fun i => String.mk ((reply.toList.drop (4000 * i)).take 4000)) ∧
    (∀ c ∈ splitMessage reply, c.length ≤ 4000) ∧
    String.join (splitMessage reply) = reply := by
  obtain ⟨cs⟩ := reply
  simp only [String_length_mk, String_toList_mk]
  by_cases hlen : (String.mk cs).length > chunkSize
  · have hlen' : cs.length > 4000 := by
      simpa [String_length_mk, chunkSize] using hlen
    have hsplit : splitMessage (String.mk cs) = (chunkList cs).map String.mk := by
      rw [splitMessage, if_pos hlen, String_toList_mk]
    have hmax : max 1 ((cs.length + 3999) / 4000) = (cs.length + 3999) / 4000 := by
      have h1 : 1 ≤ (cs.length + 3999) / 4000 := by omega
      exact Nat.max_eq_right h1
    refine ⟨?_, ?_, ?_⟩
    · rw [hsplit, hmax, chunkList, chunkFuel_eq_map_range cs.length cs le_rfl,
        List.map_map]
      rfl
    · intro c hc
      rw [hsplit] at hc
      obtain ⟨x, hx, rfl⟩ := List.mem_map.mp hc
      rw [String_length_mk]
      have := chunkFuel_length_le cs.length cs le_rfl x hx
      simpa [chunkSize] using this
    · rw [hsplit, String_join_map_mk, chunkList,
        chunkFuel_flatten cs.length cs le_rfl]
  · have hlen' : cs.length ≤ 4000 := by
      simpa [String_length_mk, chunkSize] using hlen
    have hsplit : splitMessage (String.mk cs) = [String.mk cs] := by
      rw [splitMessage, if_neg hlen]
    have hmax : max 1 ((cs.length + 3999) / 4000) = 1 := by
      have h1 : (cs.length + 3999) / 4000 ≤ 1 := by omega
      exact Nat.max_eq_left h1
    refine ⟨?_, ?_, ?_⟩
    · rw [hsplit, hmax]
      have hr : List.range 1 = [0] := rfl
      rw [hr, List.map_cons, List.map_nil, Nat.mul_zero, List.drop_zero,
        List.take_of_length_le hlen']
    · intro c hc
      rw [hsplit] at hc
      simp only [List.mem_singleton] at hc
      subst hc
      simpa [String_length_mk] using hlen'
    · rw [hsplit]
      have := String_join_map_mk [cs]
      simpa using this

/-- C4: if every conversation present in the store starts with the system
turn, then after any operation (message dispatch with any service
outcome, reset, start) this still holds; moreover a dispatched message
leaves its user with an entry headed by the system turn, and a reset
reinstates the single-system-turn conversation. -/
theorem C4_system_turn_invariant (svc : CompletionService) (s : Store)
    (hs : StoreInv s) :
    (∀ i, StoreInv (step svc s i).1) ∧
    (∀ u text, ∃ c, (step svc s (Inbound.msg u text)).1 u = some c ∧
        c.head? = some systemTurn) ∧
    (∀ u, (step svc s (Inbound.cmdReset u)).1 u = some [systemTurn]) := by
  refine ⟨?_, ?_, ?_⟩
  · intro i
    cases i with
    | msg u text =>
      intro v c hv
      simp only [step] at hv
      by_cases hvu : v = u
      · subst hvu
        obtain ⟨rest, hrest⟩ := get_or_create_head s v hs
        cases hr : svc (requestOf s v text) with
        | ok reply =>
          rw [handle_message_ok_store svc s v text reply hr] at hv
          have hc := Option.some.inj hv
          rw [← hc, hrest]
          simp
        | error e =>
          rw [handle_message_err_store svc s v text e hr] at hv
          have hc := Option.some.inj hv
          rw [← hc, hrest]
          simp
      · rw [handle_message_frame svc s u text v hvu] at hv
        exact hs v c hv
    | cmdStart u firstName =>
      intro v c hv
      exact hs v c hv
    | cmdReset u =>
      intro v c hv
      simp only [step, reset, Store.set] at hv
      by_cases hvu : v = u
      · simp only [if_pos hvu] at hv
        have hc := Option.some.inj hv
        rw [← hc]
        simp
      · simp only [if_neg hvu] at hv
        exact hs v c hv
  · intro u text
    simp only [step]
    obtain ⟨rest, hrest⟩ := get_or_create_head s u hs
    cases hr : svc (requestOf s u text) with
    | ok reply =>
      refine ⟨(get_or_create s u).2
          ++ [{ role := Role.user, content := text },
              { role := Role.assistant, content := reply }],
        handle_message_ok_store svc s u text reply hr, ?_⟩
      rw [hrest]
      simp
    | error e =>
      refine ⟨(get_or_create s u).2 ++ [{ role := Role.user, content := text }],
        handle_message_err_store svc s u text e hr, ?_⟩
      rw [hrest]
      simp
  · intro u
    simp [step, reset, Store.set]

/-- C4 witness: the empty store satisfies the invariant and so does the
store after dispatching a first message on it. -/
theorem C4_system_turn_invariant_witness :
    StoreInv (fun _ => none) ∧
    StoreInv ((step (fun _ => Except.ok "y") (fun _ => none) (Inbound.msg 1 "x")).1) :=
  ⟨fun _ c h => Option.noConfusion h,
   (C4_system_turn_invariant (fun _ => Except.ok "y") (fun _ => none)
      (fun _ c h => Option.noConfusion h)).1 (Inbound.msg 1 "x")⟩

/-- C5: for a user id not in the store, `get_or_create` creates the entry
and returns the length-1 conversation whose sole turn has role system;
for a present user id it returns the existing conversation and leaves the
store unchanged; it is a total function (never fails). -/
theorem C5_get_or_create_fresh_or_existing (s : Store) (u : UserId) :
    (s u = none →
      get_or_create s u = (Store.set s u [systemTurn], [systemTurn]) ∧
      (get_or_create s u).2.length = 1 ∧
      ∀ t ∈ (get_or_create s u).2, t.role = Role.system) ∧
    (∀ c, s u = some c → get_or_create s u = (s, c)) := by
  constructor
  · intro hc
    refine ⟨by simp [get_or_create, hc], by simp [get_or_create, hc], ?_⟩
    simp [get_or_create, hc, systemTurn]
  · intro c hc
    simp [get_or_create, hc]

/-- C5 witness: user 7 on the empty store. -/
theorem C5_get_or_create_fresh_or_existing_witness :
    get_or_create (fun _ => none) 7 =
      (Store.set (fun _ => none) 7 [systemTurn], [systemTurn]) :=
  ((C5_get_or_create_fresh_or_existing (fun _ => none) 7).1 rfl).1

/-- C6: after `reset u` the user's conversation is the single
system-role turn regardless of the prior store state, the fixed
acknowledgement is returned, and reset is idempotent. -/
theorem C6_reset_single_system_turn (s : Store) (u : UserId) :
    (reset s u).1 u = some [systemTurn] ∧
    systemTurn.role = Role.system ∧
    (reset s u).2 = resetAck ∧
    reset (reset s u).1 u = reset s u := by
  refine ⟨by simp [reset, Store.set], rfl, rfl, ?_⟩
  have hset : Store.set (Store.set s u [systemTurn]) u [systemTurn]
      = Store.set s u [systemTurn] := by
    funext v
    by_cases hv : v = u <;> simp [Store.set, hv]
  simp only [reset, hset]

/-- C7: `handle_message` queries the completion service exactly at the
request carrying the user's full ordered conversation with the new user
turn appended, together with the fixed parameters model
"gpt-3.5-turbo", max_tokens 1000 and temperature 0.7, none of which
depend on the store, the user or the message. -/
theorem C7_request_carries_conversation_and_fixed_params
    (svc1 svc2 : CompletionService) (s : Store) (u : UserId) (text : String)
    (h : svc1 (requestOf s u text) = svc2 (requestOf s u text)) :
    handle_message svc1 s u text = handle_message svc2 s u text ∧
    (requestOf s u text).messages =
      (get_or_create s u).2 ++ [{ role := Role.user, content := text }] ∧
    (requestOf s u text).model = "gpt-3.5-turbo" ∧
    (requestOf s u text).max_tokens = 1000 ∧
    (requestOf s u text).temperatureTenths = 7 := by
  refine ⟨?_, rfl, rfl, rfl, rfl⟩
  simp only [handle_message, h]

/-- C7 witness: two services agreeing at the sent request produce
identical results. -/
theorem C7_request_carries_conversation_and_fixed_params_witness :
    handle_message (fun _ => Except.ok "x") (fun _ => none) 1 "m" =
      handle_message (fun r =>
        if r.model = "gpt-3.5-turbo" then Except.ok "x" else Except.error "e")
        (fun _ => none) 1 "m" ∧
    (requestOf (fun _ => none) 1 "m").model = "gpt-3.5-turbo" := by
  have h := C7_request_carries_conversation_and_fixed_params
    (fun _ => Except.ok "x")
    (fun r => if r.model = "gpt-3.5-turbo" then Except.ok "x" else Except.error "e")
    (fun _ => none) 1 "m" rfl
  exact ⟨h.1, h.2.2.1⟩

/-- C8: startup as a function of the environment — a missing (unset or
empty) bot token or API key is a fatal configuration error; when the
RENDER flag (lowercased) is "true", the explicit RENDER_EXTERNAL_URL is
used, else the URL is derived from RENDER_SERVICE_NAME, else startup
fails with a configuration error; when the flag is unset or "false" the
bot runs in polling (pull) mode. -/
theorem C8_startup_configuration (env : Env) :
    (¬ (truthy env.telegram_token ∧ truthy env.openai_api_key) →
      startup env = StartupResult.configError) ∧
    (truthy env.telegram_token ∧ truthy env.openai_api_key →
      (strLower (env.render.getD "false") = "true" →
        (truthy env.render_external_url →
          startup env =
            StartupResult.webhook (env.render_external_url.getD "" ++ "/webhook")) ∧
        (¬ truthy env.render_external_url → truthy env.render_service_name →
          startup env = StartupResult.webhook
            ("https://" ++ env.render_service_name.getD "" ++ ".onrender.com"
              ++ "/webhook")) ∧
        (¬ truthy env.render_external_url → ¬ truthy env.render_service_name →
          startup env = StartupResult.configError)) ∧
      ((env.render = none ∨ env.render = some "false") →
        startup env = StartupResult.polling)) := by
  constructor
  · intro h
    simp [startup, h]
  · intro hcred
    constructor
    · intro hflag
      refine ⟨?_, ?_, ?_⟩
      · intro hurl
        simp [startup, hcred.1, hcred.2, hflag, hurl]
      · intro hurl hname
        simp [startup, hcred.1, hcred.2, hflag, hurl, hname]
      · intro hurl hname
        simp [startup, hcred.1, hcred.2, hflag, hurl, hname]
    · intro hrender
      have hne : ¬ strLower (env.render.getD "false") = "true" := by
        rcases hrender with h | h <;> rw [h] <;> decide
      simp [startup, hcred.1, hcred.2, hne]

/-- C8 witness: one concrete environment per branch — missing token,
explicit URL, derived URL (flag "TRUE"), undiscoverable URL, and flag
unset. -/
theorem C8_startup_configuration_witness :
    startup ⟨none, some "k", none, none, none⟩ = StartupResult.configError ∧
    startup ⟨some "t", some "k", some "true", some "https://x", none⟩ =
      StartupResult.webhook "https://x/webhook" ∧
    startup ⟨some "t", some "k", some "TRUE", none, some "svc"⟩ =
      StartupResult.webhook "https://svc.onrender.com/webhook" ∧
    startup ⟨some "t", some "k", some "true", none, none⟩ =
      StartupResult.configError ∧
    startup ⟨some "t", some "k", none, none, none⟩ = StartupResult.polling := by
  refine ⟨(C8_startup_configuration _).1 (by decide), ?_, ?_, ?_, ?_⟩
  · exact ((((C8_startup_configuration _).2 (by decide)).1 (by decide)).1
      (by decide)).trans (by decide)
  · exact (((((C8_startup_configuration _).2 (by decide)).1 (by decide)).2.1
      (by decide)) (by decide)).trans (by decide)
  · exact ((((C8_startup_configuration _).2 (by decide)).1 (by decide)).2.2
      (by decide)) (by decide)
  · exact ((C8_startup_configuration _).2 (by decide)).2 (Or.inl rfl)

/-- C9: dispatching a message for user u or resetting u leaves every
other user's store entry untouched (whatever the service outcome), and
the start handler leaves the whole store unchanged. -/
theorem C9_cross_user_frame (svc : CompletionService) (s : Store)
    (u v : UserId) (text firstName : String) (hvu : v ≠ u) :
    (step svc s (Inbound.msg u text)).1 v = s v ∧
    (step svc s (Inbound.cmdReset u)).1 v = s v ∧
    (∀ w, (step svc s (Inbound.cmdStart u firstName)).1 w = s w) := by
  refine ⟨handle_message_frame svc s u text v hvu, ?_, fun w => rfl⟩
  simp [step, reset, Store.set, hvu]

/-- C9 witness: user 2's entry after operations for user 1. -/
theorem C9_cross_user_frame_witness :
    (step (fun _ => Except.ok "x") (fun _ => none) (Inbound.msg 1 "m")).1 2 = none ∧
    (step (fun _ => Except.ok "x") (fun _ => none) (Inbound.cmdReset 1)).1 2 = none := by
  have h := C9_cross_user_frame (fun _ => Except.ok "x") (fun _ => none)
    1 2 "m" "n" (by decide)
  exact ⟨h.1, h.2.1⟩

/-- C10: the user-visible output of a failed dispatch is the single
fixed error chunk, identical across failures with different error
details — no error information reaches the user. -/
theorem C10_error_output_noninterference (svc1 svc2 : CompletionService)
    (s : Store) (u : UserId) (text e1 e2 : String)
    (h1 : svc1 (requestOf s u text) = Except.error e1)
    (h2 : svc2 (requestOf s u text) = Except.error e2) :
    (handle_message svc1 s u text).2 = [errorNotice] ∧
    (handle_message svc1 s u text).2 = (handle_message svc2 s u text).2 :=
  ⟨handle_message_err_out svc1 s u text e1 h1,
   (handle_message_err_out svc1 s u text e1 h1).trans
     (handle_message_err_out svc2 s u text e2 h2).symm⟩

/-- C10 witness: a timeout and an authentication failure yield the same
user-visible output. -/
theorem C10_error_output_noninterference_witness :
    (handle_message (fun _ => Except.error "timeout") (fun _ => none) 3 "m").2
      = [errorNotice] ∧
    (handle_message (fun _ => Except.error "timeout") (fun _ => none) 3 "m").2
      = (handle_message (fun _ => Except.error "api key invalid")
          (fun _ => none) 3 "m").2 :=
  C10_error_output_noninterference (fun _ => Except.error "timeout")
    (fun _ => Except.error "api key invalid") (fun _ => none) 3 "m"
    "timeout" "api key invalid" rfl rfl
